import Mathlib

/-
Verification of the host-port exposure subsystem of the testcontainers
repository (file port_forwarding.go), as a shallow embedding in Lean 4.

The embedding translates the Go source into pure Lean functions.  External
effects (the SSH dial, the remote listen, channel receives, container
creation, network lookup) are resolved by explicit environment records whose
fields carry the outcome the external world would produce; every function is
executable.  Go errors are modelled as `Option Err` (`none` is Go's nil
error); the aggregated error of `errors.Join` over a loop is modelled as a
`List Err` whose empty list plays the role of the nil error.
-/

namespace Testcontainers

/- Go errors are strings here; `none : Option Err` is Go's nil error. -/
abbrev Err := String

/- Constants from port_forwarding.go lines 18-28. -/

def sshdImage : String := "testcontainers/sshd:1.2.0"

/-- HostInternal is the internal hostname used to reach the host from the
container, using the SSHD container as a bridge (line 25). -/
def HostInternal : String := "host.testcontainers.internal"

def user : String := "root"

def sshPort : String := "22"

/-- Process-wide state of the Go package: `var sshPassword = uuid.NewString()`
(line 31) runs once per process, so the password is one value per process. -/
structure ProcessState where
  sshPassword : String
deriving DecidableEq

/-- Shallow model of golang.org/x/crypto/ssh.ClientConfig as configured by
configureSSHConfig (lines 205-210): user, insecure host-key callback, a
single password auth method, and a 30 second timeout. -/
structure SSHClientConfig where
  user : String
  insecureIgnoreHostKey : Bool
  authPassword : String
  timeoutSeconds : Nat
deriving DecidableEq

/-- PortForwarder (lines 233-240).  The two channels are modelled by their
closed-ness flags; the value that travels over `connectionCreated` is
recovered from the `Forward` model below. -/
structure PortForwarder where
  sshDAddr : String
  sshConfig : Option SSHClientConfig
  remotePort : Int
  localPort : Int
  /-- `connectionCreated` channel has been closed. -/
  connectionCreatedClosed : Bool
  /-- `terminateChan` channel has been closed. -/
  terminateChanClosed : Bool
deriving DecidableEq

/-- NewPortForwarder (lines 242-251): both channels are freshly made (open). -/
def NewPortForwarder (sshDAddr : String) (sshConfig : Option SSHClientConfig)
    (remotePort localPort : Int) : PortForwarder :=
  { sshDAddr := sshDAddr
    sshConfig := sshConfig
    remotePort := remotePort
    localPort := localPort
    connectionCreatedClosed := false
    terminateChanClosed := false }

/-- Close (lines 253-256): `close(pf.terminateChan); close(pf.connectionCreated)`. -/
def PortForwarder.Close (pf : PortForwarder) : PortForwarder :=
  { pf with terminateChanClosed := true, connectionCreatedClosed := true }

/-- Environment resolving the external effects of one `Forward` execution
(lines 258-307): the ssh dial outcome, the remote listen outcome, whether the
context or the terminate channel is already done at the pre-loop select, the
outcomes of the two explicit Close calls in that select, and the accept loop
history (how many connections were accepted before the accept error that ends
the loop). -/
structure ForwardEnv where
  dialErr : Option Err
  listenErr : Option Err
  ctxDone : Bool
  termClosed : Bool
  listenerCloseErr : Option Err
  clientCloseErr : Option Err
  acceptErr : Err
  accepted : Nat
deriving DecidableEq

/-- Observable outcome of one `Forward` execution.  `sends` lists the values
delivered on the `connectionCreated` channel, in order.  The two `Closed`
fields record whether Close was invoked on the listener and the ssh client
(explicitly or through the deferred calls of lines 265 and 273). -/
structure ForwardResult where
  sends : List (Option Err)
  ret : Option Err
  enteredAcceptLoop : Bool
  listenerClosed : Bool
  clientClosed : Bool
  tunnelsSpawned : Nat
deriving DecidableEq

/-- The single bind outcome `Forward` delivers on `connectionCreated`:
the dial error (line 262), else the listen error (line 270), else nil
(line 276). -/
def bindOutcome (env : ForwardEnv) : Option Err :=
  match env.dialErr with
  | some e => some ("error dialing ssh server: " ++ e)
  | none =>
    match env.listenErr with
    | some e => some ("error listening on remote port: " ++ e)
    | none => none

/-- Forward (lines 258-307), sequential model.  The `go pf.runTunnel` spawns
are counted in `tunnelsSpawned`; a terminating accept loop ends with the
accept error of the environment. -/
def PortForwarder.Forward (_pf : PortForwarder) (env : ForwardEnv) : ForwardResult :=
  match env.dialErr with
  | some e =>
      let err := "error dialing ssh server: " ++ e
      { sends := [some err], ret := some err, enteredAcceptLoop := false
        listenerClosed := false, clientClosed := false, tunnelsSpawned := 0 }
  | none =>
      match env.listenErr with
      | some e =>
          let err := "error listening on remote port: " ++ e
          -- deferred client.Close() (line 265) runs on this return
          { sends := [some err], ret := some err, enteredAcceptLoop := false
            listenerClosed := false, clientClosed := true, tunnelsSpawned := 0 }
      | none =>
          -- line 276: signal that the connection has been created
          if env.ctxDone || env.termClosed then
            -- lines 279-297: close listener and client, return their error if any
            match env.listenerCloseErr with
            | some e =>
                { sends := [none], ret := some ("error closing listener: " ++ e)
                  enteredAcceptLoop := false, listenerClosed := true
                  clientClosed := true, tunnelsSpawned := 0 }
            | none =>
                match env.clientCloseErr with
                | some e =>
                    { sends := [none], ret := some ("error closing client: " ++ e)
                      enteredAcceptLoop := false, listenerClosed := true
                      clientClosed := true, tunnelsSpawned := 0 }
                | none =>
                    { sends := [none], ret := none
                      enteredAcceptLoop := false, listenerClosed := true
                      clientClosed := true, tunnelsSpawned := 0 }
          else
            -- lines 299-306: accept loop; ends when Accept returns an error
            { sends := [none], ret := some ("error accepting connection: " ++ env.acceptErr)
              enteredAcceptLoop := true, listenerClosed := true
              clientClosed := true, tunnelsSpawned := env.accepted }

/-- Environment of one `runTunnel` execution (lines 312-335): the outcome of
the local dial, which byte-copy direction signals `done` first, and the copy
error of that direction (the code discards it). -/
structure TunnelEnv where
  localDialErr : Option Err
  firstDoneRemoteToLocal : Bool
  copyErr : Option Err
deriving DecidableEq

/-- Observable outcome of one `runTunnel` execution.  `err` is what the call
reports to its caller: `runTunnel` returns nothing, so it is always `none`. -/
structure TunnelResult where
  localDialed : Bool
  remoteClosed : Bool
  localClosed : Bool
  doneReceived : Nat
  err : Option Err
deriving DecidableEq

/-- runTunnel (lines 312-335): on local dial failure close the remote
connection and return; otherwise run both copy directions and, after the
first `done` signal, return, closing both connections through the deferred
calls of lines 319 and 321. -/
def PortForwarder.runTunnel (_pf : PortForwarder) (env : TunnelEnv) : TunnelResult :=
  match env.localDialErr with
  | some _ =>
      { localDialed := false, remoteClosed := true, localClosed := false
        doneReceived := 0, err := none }
  | none =>
      { localDialed := true, remoteClosed := true, localClosed := true
        doneReceived := 1, err := none }

/-- The subset of the fields of the Go `Request` type that the host-port
exposure subsystem reads or writes, with the zero values of Go as defaults.
`HostConfigModifier` is a nil-able function pointer; its behaviour is
modelled by the symbolic `HostConfigModifierFn` below. -/
inductive HostConfigModifierFn where
  /-- a modifier supplied by the caller, identified symbolically -/
  | custom (tag : Nat)
  /-- the no-op modifier installed at line 97 when the caller supplied none -/
  | noop
  /-- the wrapper installed at lines 102-122: adds the HostInternal extra
  host for the given sshd IP, may attach the container to the sshd network,
  then invokes the original modifier -/
  | sshdWrapper (original : HostConfigModifierFn) (sshdIP : String)
      (sshdFirstNetwork : String)
deriving DecidableEq

structure Request where
  Image : String := ""
  HostAccessPorts : List Int := []
  ExposedPorts : List String := []
  Env : List (String × String) := []
  Networks : List String := []
  NetworkAliases : List (String × List String) := []
  HostConfigModifier : Option HostConfigModifierFn := none
  Started : Bool := false
deriving DecidableEq

/-- A created container: its runtime id together with the request it was
created from (`New(ctx, req)` at line 159). -/
structure DockerContainer where
  id : String
  req : Request
deriving DecidableEq

/-- sshdContainer (lines 182-187): the created container, the mapped ssh
port, the ssh client config (nil until configureSSHConfig succeeds) and the
owned collection of port forwarders. -/
structure SshdContainer where
  dc : DockerContainer
  port : String
  sshConfig : Option SSHClientConfig
  portForwarders : List PortForwarder
deriving DecidableEq

/-- One receive loop of exposeHostPort (lines 226-228): for each forwarder of
the collection, in order, block on its `connectionCreated` channel and take
the single value its `Forward` execution sends there.  The result lists the
receive events `(forwarder index, received outcome)` in order. -/
def recvAll (envOf : Nat → ForwardEnv) : List PortForwarder → Nat → List (Nat × Option Err)
  | [], _ => []
  | pf :: rest, i =>
      (i, (pf.Forward (envOf i)).sends.headD none) :: recvAll envOf rest (i + 1)

/-- The running `errors.Join` of the receive loop (line 227): the combined
error collects every non-nil received error, in order; `[]` is Go's nil. -/
def joinAll (receives : List (Nat × Option Err)) : List Err :=
  receives.foldl (fun acc r => acc ++ r.2.toList) []

/-- Result of `sshdContainer.exposeHostPort`. -/
structure ExposeHostPortResult where
  container : SshdContainer
  err : List Err
  receives : List (Nat × Option Err)
deriving DecidableEq

/-- exposeHostPort (lines 215-231): create one forwarder per port (identical
remote and local port), append each to the owned collection, start its
`Forward` as a goroutine, then receive one bind outcome from every forwarder
of the collection and return the join of the received errors.  The
environment `envOf` resolves the externals of the forwarder spawned for
collection index `i`. -/
def SshdContainer.exposeHostPort (sshdC : SshdContainer) (ports : List Int)
    (envOf : Nat → ForwardEnv) : ExposeHostPortResult :=
  let sshdC :=
    { sshdC with portForwarders := sshdC.portForwarders ++
        ports.map (fun port =>
          NewPortForwarder ("localhost:" ++ sshdC.port) sshdC.sshConfig port port) }
  let receives := recvAll envOf sshdC.portForwarders 0
  { container := sshdC, err := joinAll receives, receives := receives }

/-- The observable events of one `Terminate` call, in program order. -/
inductive TerminateEvent where
  | closeForwarder (idx : Nat)
  | terminateContainer
deriving DecidableEq

/-- Terminate (lines 190-196): close every owned forwarder, then terminate
the underlying container;  the call returns whatever the container's own
Terminate returns (`containerTerminateErr`, resolved by the environment). -/
def SshdContainer.Terminate (sshdC : SshdContainer) (containerTerminateErr : Option Err) :
    SshdContainer × Option Err × List TerminateEvent :=
  ({ sshdC with portForwarders := sshdC.portForwarders.map PortForwarder.Close },
   containerTerminateErr,
   (List.range sshdC.portForwarders.length).map TerminateEvent.closeForwarder
     ++ [TerminateEvent.terminateContainer])

/-- Environment resolving the externals of provisioning: the network lookup,
container creation (`New`), the mapped ssh port, and the container IP. -/
structure OrchestraEnv where
  getNetworkByName : String → Option String
  newContainer : Request → Option String
  sshdMappedPort : Option String
  containerIP : Option String

/-- configureSSHConfig (lines 198-213): store the mapped ssh port on the
container and build the client config with the process password, the root
user, the insecure host-key callback and a 30 second timeout. -/
def configureSSHConfig (ps : ProcessState) (env : OrchestraEnv) (sshdC : SshdContainer) :
    SshdContainer × Option SSHClientConfig × Option Err :=
  match env.sshdMappedPort with
  | none => (sshdC, none, some ("failed to get the mapped port"))
  | some mp =>
      ({ sshdC with port := mp },
       some { user := user, insecureIgnoreHostKey := true
              authPassword := ps.sshPassword, timeoutSeconds := 30 },
       none)

/-- newSshdContainer (lines 144-178): build the sshd request (image, no host
access ports, exposed ssh port, PASSWORD environment variable carrying the
process password), apply the customizers, create the container, then build
the ssh config.  On a configureSSHConfig failure the non-nil container is
returned together with the error.  The trailing Nat counts the containers
created by the call. -/
def newSshdContainer (ps : ProcessState) (env : OrchestraEnv)
    (opts : List (Request → Request)) : Option SshdContainer × Option Err × Nat :=
  let req : Request :=
    { Image := sshdImage, HostAccessPorts := [], ExposedPorts := [sshPort]
      Env := [(("PASSWORD"), ps.sshPassword)], Started := true }
  let req := opts.foldl (fun r o => o r) req
  match env.newContainer req with
  | none => (none, some ("failed to create container"), 0)
  | some cid =>
      let sshd : SshdContainer :=
        { dc := { id := cid, req := req }, port := "", sshConfig := none
          portForwarders := [] }
      match configureSSHConfig ps env sshd with
      | (sshd2, cfg, none) => (some { sshd2 with sshConfig := cfg }, none, 1)
      | (sshd2, _, some e) => (some sshd2, some e, 1)

/-- The network selection of exposeHostPorts (lines 47-55): take the first
requested network; if that is the platform default and more than one network
was requested, take the second instead. -/
def sshdFirstNetworkOf (networks : List String) : String :=
  let first := networks.headD ""
  if first = "bridge" ∧ 1 < networks.length then networks.getD 1 first else first

/-- Modelled from the spec: the phrase of section 4.3, "prefer the first
non-default network in the caller's requested network list", where the
platform default network is the one named bridge.  Used only to compare the
spec's wording with the selection the source implements. -/
def firstNonDefaultNetwork (networks : List String) : Option String :=
  networks.find? (fun n => n ≠ "bridge")

/-- The withNetwork customizer (lines 68-79): attach the request to the
network and set the aliases on it. -/
def withNetwork (aliases : List String) (networkName : String) (r : Request) : Request :=
  { r with Networks := r.Networks ++ [networkName]
           NetworkAliases := r.NetworkAliases ++ [(networkName, aliases)] }

/-- The lifecycle hooks exposeHostPorts returns (lines 126-138).  A
post-ready hook is modelled by the ports it forwards, as a function of the
request state at the time the hook runs (the Go hook closes over `req` by
reference and reads `req.HostAccessPorts` when invoked).  A pre-terminate
entry is `true` when the hook calls the sshd container's Terminate. -/
structure ContainerLifecycleHooks where
  PostReadies : List (Request → List Int) := []
  PreTerminates : List Bool := []

/-- Result of the orchestrator entry point. -/
structure ExposeHostPortsResult where
  hooks : ContainerLifecycleHooks
  err : Option Err
  finalReq : Request
  containersCreated : Nat

/-- exposeHostPorts (lines 40-141): reject an empty port list, select the
sshd network, look it up when the caller has networks, create the sshd
container, get its IP, wrap the caller's HostConfigModifier, and return the
post-ready / pre-terminate hook pair.  Every failure returns the zero-value
hook set and leaves the caller's request untouched. -/
def exposeHostPorts (ps : ProcessState) (env : OrchestraEnv) (req : Request)
    (p : List Int) : ExposeHostPortsResult :=
  if p.length = 0 then
    { hooks := {}, err := some ("no ports to expose"), finalReq := req
      containersCreated := 0 }
  else
    let sshdFirstNetwork := sshdFirstNetworkOf req.Networks
    let lookupResult : Option (List (Request → Request)) :=
      if 0 < req.Networks.length then
        match env.getNetworkByName sshdFirstNetwork with
        | none => none
        | some nwName => some [withNetwork [HostInternal] nwName]
      else some []
    match lookupResult with
    | none =>
        { hooks := {}, err := some ("failed to get the network"), finalReq := req
          containersCreated := 0 }
    | some opts =>
        match newSshdContainer ps env opts with
        | (_, some _, created) =>
            { hooks := {}, err := some ("failed to create the SSH server")
              finalReq := req, containersCreated := created }
        | (none, none, created) =>
            { hooks := {}, err := some ("failed to create the SSH server")
              finalReq := req, containersCreated := created }
        | (some _, none, created) =>
            match env.containerIP with
            | none =>
                { hooks := {}, err := some ("failed to get IP for the SSHD container")
                  finalReq := req, containersCreated := created }
            | some sshdIP =>
                let originalHCM :=
                  match req.HostConfigModifier with
                  | none => HostConfigModifierFn.noop
                  | some m => m
                let hcm :=
                  HostConfigModifierFn.sshdWrapper originalHCM sshdIP sshdFirstNetwork
                let req := { req with HostConfigModifier := some hcm }
                { hooks := { PostReadies := [fun cur => cur.HostAccessPorts]
                             PreTerminates := [true] }
                  err := none, finalReq := req, containersCreated := created }

/-
Interleaving model for a Close call racing an in-flight Forward on the same
forwarder.  Only the operations on the two channels matter for panics and for
the number of delivered bind outcomes, so each concurrent task is reduced to
its sequence of channel-relevant atomic steps; `fOther` stands for any
Forward step that touches neither channel (ssh.Dial, client.Listen, the
select read of terminateChan, the accept loop).  Go semantics: a send on a
closed channel panics, and closing an already-closed channel panics.
-/

inductive CStep where
  /-- Forward sends the bind outcome on connectionCreated (line 262, 270 or 276) -/
  | fSend
  /-- any Forward step that does not operate on a channel -/
  | fOther
  /-- Close runs close(pf.terminateChan) (line 254) -/
  | cCloseTerm
  /-- Close runs close(pf.connectionCreated) (line 255) -/
  | cCloseConn
deriving DecidableEq

/-- Channel state shared by the racing Forward and Close. -/
structure ChanState where
  connClosed : Bool := false
  termClosed : Bool := false
  delivered : Nat := 0
  panicked : Bool := false
deriving DecidableEq

/-- One atomic step of the race.  Once panicked, the run is stuck. -/
def stepC (s : ChanState) (a : CStep) : ChanState :=
  if s.panicked then s
  else
    match a with
    | CStep.fSend =>
        if s.connClosed then { s with panicked := true }
        else { s with delivered := s.delivered + 1 }
    | CStep.fOther => s
    | CStep.cCloseTerm =>
        if s.termClosed then { s with panicked := true }
        else { s with termClosed := true }
    | CStep.cCloseConn =>
        if s.connClosed then { s with panicked := true }
        else { s with connClosed := true }

/-- Run a schedule (a fully interleaved sequence of steps) from open channels. -/
def runC (sched : List CStep) : ChanState :=
  sched.foldl stepC {}

/-- Occurrence count of a step in a schedule. -/
def countStep (a : CStep) : List CStep → Nat
  | [] => 0
  | b :: l => countStep a l + (if b = a then 1 else 0)

/-- The channel-relevant steps Forward performs before its single send:
the ssh dial, and the listen when the dial succeeded (lines 259-267). -/
def forwardPreSendSteps (env : ForwardEnv) : List CStep :=
  match env.dialErr with
  | some _ => [CStep.fOther]
  | none => [CStep.fOther, CStep.fOther]

/-- The channel-relevant steps Forward performs after its send: nothing on a
dial or listen failure (Forward returns), else the select read of
terminateChan and the accept loop, none of which touches connectionCreated
(lines 278-307). -/
def forwardPostSendSteps (env : ForwardEnv) : List CStep :=
  match env.dialErr with
  | some _ => []
  | none =>
    match env.listenErr with
    | some _ => []
    | none => [CStep.fOther, CStep.fOther]

/-- The full channel-relevant step sequence of one Forward execution: its
pre-send steps, the single send of the bind outcome, its post-send steps. -/
def forwardCSteps (env : ForwardEnv) : List CStep :=
  forwardPreSendSteps env ++ CStep.fSend :: forwardPostSendSteps env

/-- The steps of one Close call (lines 253-256), in program order. -/
def closeSteps : List CStep := [CStep.cCloseTerm, CStep.cCloseConn]

/-- `Interleaves xs ys zs`: `zs` is an interleaving of `xs` and `ys` that
keeps the internal order of both. -/
inductive Interleaves : List CStep → List CStep → List CStep → Prop where
  | nil : Interleaves [] [] []
  | left {xs ys zs} (a : CStep) : Interleaves xs ys zs → Interleaves (a :: xs) ys (a :: zs)
  | right {xs ys zs} (a : CStep) : Interleaves xs ys zs → Interleaves xs (a :: ys) (a :: zs)

/- Helper lemmas. -/

/-- Every Forward execution sends exactly the one bind outcome of its
environment on connectionCreated. -/
theorem Forward_sends (pf : PortForwarder) (env : ForwardEnv) :
    (pf.Forward env).sends = [bindOutcome env] := by
  unfold PortForwarder.Forward bindOutcome
  rcases env.dialErr with _ | e
  · rcases env.listenErr with _ | e
    · by_cases h : env.ctxDone || env.termClosed
      · simp only [h, if_true]
        rcases env.listenerCloseErr with _ | e1
        · rcases env.clientCloseErr with _ | e2 <;> simp
        · simp
      · simp only [h, if_false]
        simp [Bool.not_eq_true] at h
        simp [h]
    · simp
  · simp

/-- The receive loop pairs the collection indices, in order, with the bind
outcomes of the corresponding Forward environments. -/
theorem recvAll_eq (envOf : Nat → ForwardEnv) (l : List PortForwarder) (i : Nat) :
    recvAll envOf l i = (List.range' i l.length).map (fun j => (j, bindOutcome (envOf j))) := by
  induction l generalizing i with
  | nil => simp [recvAll]
  | cons pf rest ih =>
      simp only [recvAll, Forward_sends, List.headD_cons, List.length_cons,
        List.range'_succ, List.map_cons]
      exact congrArg _ (ih (i + 1))

/-- The running errors.Join of the receive loop collects exactly the non-nil
received errors, in order. -/
theorem joinAll_eq (receives : List (Nat × Option Err)) :
    joinAll receives = receives.filterMap (fun r => r.2) := by
  have h : ∀ (l : List (Nat × Option Err)) (acc : List Err),
      l.foldl (fun acc r => acc ++ r.2.toList) acc = acc ++ l.filterMap (fun r => r.2) := by
    intro l
    induction l with
    | nil => simp
    | cons r rest ih =>
        intro acc
        rcases r with ⟨j, o⟩
        rcases o with _ | e <;> simp [ih, List.filterMap_cons]
  simpa using h receives []

/-- A fold of channel-neutral steps leaves the channel state unchanged. -/
theorem foldl_fOther (l : List CStep) (s : ChanState)
    (h : ∀ a ∈ l, a = CStep.fOther) : l.foldl stepC s = s := by
  induction l generalizing s with
  | nil => rfl
  | cons a rest ih =>
      have ha := h a (by simp)
      subst ha
      have hr : ∀ b ∈ rest, b = CStep.fOther := fun b hb => h b (by simp [hb])
      simp only [List.foldl_cons]
      have : stepC s CStep.fOther = s := by
        unfold stepC
        by_cases hp : s.panicked <;> simp [hp]
      rw [this]
      exact ih s hr

/-- An interleaving preserves step counts. -/
theorem Interleaves.countStep_eq {xs ys zs : List CStep} (a : CStep)
    (h : Interleaves xs ys zs) : countStep a zs = countStep a xs + countStep a ys := by
  induction h with
  | nil => rfl
  | left b _ ih => simp only [countStep, ih]; omega
  | right b _ ih => simp only [countStep, ih]; omega

/-- An interleaving contains only steps of its two components. -/
theorem Interleaves.mem {xs ys zs : List CStep}
    (h : Interleaves xs ys zs) : ∀ a ∈ zs, a ∈ xs ∨ a ∈ ys := by
  induction h with
  | nil => intro a ha; cases ha
  | left b _ ih =>
      intro a ha
      rcases List.mem_cons.mp ha with rfl | ha
      · exact Or.inl (by simp)
      · rcases ih a ha with h1 | h2
        · exact Or.inl (by simp [h1])
        · exact Or.inr h2
  | right b _ ih =>
      intro a ha
      rcases List.mem_cons.mp ha with rfl | ha
      · exact Or.inr (by simp)
      · rcases ih a ha with h1 | h2
        · exact Or.inl h1
        · exact Or.inr (by simp [h2])

/-- A channel-neutral step list contains no occurrence of any other step. -/
theorem countStep_eq_zero (a : CStep) (l : List CStep)
    (h : ∀ b ∈ l, b = CStep.fOther) (ha : a ≠ CStep.fOther) : countStep a l = 0 := by
  induction l with
  | nil => rfl
  | cons b rest ih =>
      have hb := h b (by simp)
      subst hb
      simp only [countStep, ih (fun c hc => h c (by simp [hc]))]
      rw [if_neg (fun hco => ha hco.symm)]

/-- Running a send-free schedule from an unpanicked state in which each close
can still happen at most once panics nothing and delivers nothing. -/
theorem runC_noSend (M : List CStep) : ∀ s : ChanState,
    s.panicked = false →
    CStep.fSend ∉ M →
    (if s.connClosed then 1 else 0) + countStep CStep.cCloseConn M ≤ 1 →
    (if s.termClosed then 1 else 0) + countStep CStep.cCloseTerm M ≤ 1 →
    (M.foldl stepC s).panicked = false ∧ (M.foldl stepC s).delivered = s.delivered := by
  induction M with
  | nil => intro s hp _ _ _; exact ⟨hp, rfl⟩
  | cons a rest ih =>
      intro s hp hsend hconn hterm
      have hsend' : CStep.fSend ∉ rest := fun h => hsend (by simp [h])
      have hane : a ≠ CStep.fSend := fun h => hsend (by simp [h])
      simp only [List.foldl_cons]
      cases a with
      | fSend => exact absurd rfl hane
      | fOther =>
          have hstep : stepC s CStep.fOther = s := by unfold stepC; simp [hp]
          rw [hstep]
          exact ih s hp hsend' (by simpa [countStep] using hconn) (by simpa [countStep] using hterm)
      | cCloseTerm =>
          have hterm0 : s.termClosed = false := by
            by_contra h
            simp only [Bool.not_eq_false] at h
            simp [h, countStep] at hterm
          have hstep : stepC s CStep.cCloseTerm = { s with termClosed := true } := by
            unfold stepC; simp [hp, hterm0]
          rw [hstep]
          refine ih _ (by simp [hp]) hsend' ?_ ?_
          · simpa [countStep] using hconn
          · simp only [countStep] at hterm
            simp [hterm0] at hterm
            simp
            omega
      | cCloseConn =>
          have hconn0 : s.connClosed = false := by
            by_contra h
            simp only [Bool.not_eq_false] at h
            simp [h, countStep] at hconn
          have hstep : stepC s CStep.cCloseConn = { s with connClosed := true } := by
            unfold stepC; simp [hp, hconn0]
          rw [hstep]
          refine ih _ (by simp [hp]) hsend' ?_ ?_
          · simp only [countStep] at hconn
            simp [hconn0] at hconn
            simp
            omega
          · simpa [countStep] using hterm

/-- The pre-send steps of a Forward execution are channel-neutral. -/
theorem forwardPreSendSteps_fOther (env : ForwardEnv) :
    ∀ a ∈ forwardPreSendSteps env, a = CStep.fOther := by
  unfold forwardPreSendSteps
  rcases env.dialErr with _ | e <;> simp

/-- The post-send steps of a Forward execution are channel-neutral. -/
theorem forwardPostSendSteps_fOther (env : ForwardEnv) :
    ∀ a ∈ forwardPostSendSteps env, a = CStep.fOther := by
  unfold forwardPostSendSteps
  rcases env.dialErr with _ | e
  · rcases env.listenErr with _ | e <;> simp
  · simp

/- Concrete sample inputs used by witnesses and counterexamples. -/

def pfSample : PortForwarder := NewPortForwarder ("localhost:32770") none 8080 8080

def envDialFail : ForwardEnv :=
  { dialErr := some ("boom"), listenErr := none, ctxDone := false, termClosed := false
    listenerCloseErr := none, clientCloseErr := none, acceptErr := "", accepted := 0 }

def envListenFail : ForwardEnv :=
  { dialErr := none, listenErr := some ("address already in use"), ctxDone := false
    termClosed := false, listenerCloseErr := none, clientCloseErr := none
    acceptErr := "", accepted := 0 }

def envOK : ForwardEnv :=
  { dialErr := none, listenErr := none, ctxDone := false, termClosed := false
    listenerCloseErr := none, clientCloseErr := none
    acceptErr := "use of closed network connection", accepted := 2 }

def envC8 : ForwardEnv :=
  { dialErr := none, listenErr := none, ctxDone := true, termClosed := false
    listenerCloseErr := some ("close failed"), clientCloseErr := none
    acceptErr := "", accepted := 0 }

def envC8ok : ForwardEnv :=
  { dialErr := none, listenErr := none, ctxDone := false, termClosed := true
    listenerCloseErr := none, clientCloseErr := none, acceptErr := "", accepted := 0 }

/- Claim theorems. -/

/-- C2: every execution of PortForwarder.Forward delivers exactly one outcome
on the bind-outcome channel, never more: the dial error when dialing the
bridge transport fails, the listen error when requesting the remote listener
fails, and the nil outcome on success; in the two failure cases Forward
returns that same error and the accept loop never starts. -/
theorem forward_delivers_exactly_one_outcome (pf : PortForwarder) (env : ForwardEnv) :
    (pf.Forward env).sends = [bindOutcome env]
    ∧ (env.dialErr.isSome ∨ env.listenErr.isSome →
        (pf.Forward env).ret = bindOutcome env
        ∧ (pf.Forward env).enteredAcceptLoop = false)
    ∧ (env.dialErr = none → env.listenErr = none → bindOutcome env = none) := by
  refine ⟨Forward_sends pf env, ?_, ?_⟩
  · intro h
    unfold PortForwarder.Forward bindOutcome
    rcases hd : env.dialErr with _ | e
    · rcases hl : env.listenErr with _ | e
      · rw [hd, hl] at h
        simp at h
      · simp
    · simp
  · intro hd hl
    simp [bindOutcome, hd, hl]

/-- C2 witness: the dial-failure instance of the theorem at a concrete
forwarder and environment. -/
theorem forward_delivers_exactly_one_outcome_witness :
    (pfSample.Forward envDialFail).sends = [bindOutcome envDialFail]
    ∧ (pfSample.Forward envDialFail).ret = bindOutcome envDialFail
    ∧ (pfSample.Forward envDialFail).enteredAcceptLoop = false := by
  have h := forward_delivers_exactly_one_outcome pfSample envDialFail
  exact ⟨h.1, (h.2.1 (Or.inl (by decide))).1, (h.2.1 (Or.inl (by decide))).2⟩

/-- C7: for every accepted bridge-side connection, a failing local dial
closes the remote connection and abandons that one connection without
reporting any error to the forwarder; a successful dial leads to both
connections being closed as soon as the first byte-copy direction finishes
(one done signal received), regardless of which direction finished first or
whether it finished with an error. -/
theorem runTunnel_isolates_connection_failures (pf : PortForwarder) (env : TunnelEnv) :
    (pf.runTunnel env).err = none
    ∧ (env.localDialErr ≠ none →
        (pf.runTunnel env).remoteClosed = true
        ∧ (pf.runTunnel env).localDialed = false
        ∧ (pf.runTunnel env).doneReceived = 0)
    ∧ (env.localDialErr = none →
        (pf.runTunnel env).remoteClosed = true
        ∧ (pf.runTunnel env).localClosed = true
        ∧ (pf.runTunnel env).doneReceived = 1)
    ∧ (∀ b e, pf.runTunnel { env with firstDoneRemoteToLocal := b, copyErr := e }
        = pf.runTunnel env) := by
  rcases hd : env.localDialErr with _ | e <;>
    simp [PortForwarder.runTunnel, hd]

/-- C7 witness: the theorem at a concrete forwarder and a successful local
dial, and separately at a failing local dial. -/
theorem runTunnel_isolates_connection_failures_witness :
    (pfSample.runTunnel { localDialErr := none, firstDoneRemoteToLocal := true
                          copyErr := none }).doneReceived = 1
    ∧ (pfSample.runTunnel { localDialErr := some ("connection refused")
                            firstDoneRemoteToLocal := true, copyErr := none }).err = none := by
  refine ⟨?_, ?_⟩
  · exact ((runTunnel_isolates_connection_failures pfSample
      { localDialErr := none, firstDoneRemoteToLocal := true, copyErr := none }).2.2.1
        rfl).2.2
  · exact (runTunnel_isolates_connection_failures pfSample
      { localDialErr := some ("connection refused"), firstDoneRemoteToLocal := true
        copyErr := none }).1

/-- C8 (amended): when the remote listener bound successfully and a context
cancellation or explicit-close signal has already arrived before the accept
loop, Forward closes the listener and the transport dial and never enters
the accept loop; it returns no error exactly when both Close calls succeed,
and otherwise returns the close error. -/
theorem forward_cancelled_before_accept (pf : PortForwarder) (env : ForwardEnv)
    (hd : env.dialErr = none) (hl : env.listenErr = none)
    (hc : (env.ctxDone || env.termClosed) = true) :
    (pf.Forward env).enteredAcceptLoop = false
    ∧ (pf.Forward env).listenerClosed = true
    ∧ (pf.Forward env).clientClosed = true
    ∧ ((pf.Forward env).ret = none ↔
        env.listenerCloseErr = none ∧ env.clientCloseErr = none) := by
  unfold PortForwarder.Forward
  rcases hlc : env.listenerCloseErr with _ | e1
  · rcases hcc : env.clientCloseErr with _ | e2 <;> simp [hd, hl, hc, hlc, hcc]
  · simp [hd, hl, hc, hlc]

/-- C8 counterexample: in the very scenario of the claim (listener bound,
cancellation already arrived, accept loop never entered) Forward returns a
non-nil error when closing the listener fails, so the claim's unconditional
"returns cleanly with no error" is false. -/
theorem forward_close_error_counterexample :
    envC8.dialErr = none ∧ envC8.listenErr = none ∧ envC8.ctxDone = true
    ∧ (pfSample.Forward envC8).enteredAcceptLoop = false
    ∧ ¬ (pfSample.Forward envC8).ret = none := by decide

/-- C8 witness: the amended theorem at a concrete forwarder and an
environment whose two Close calls succeed. -/
theorem forward_cancelled_before_accept_witness :
    (pfSample.Forward envC8ok).enteredAcceptLoop = false
    ∧ (pfSample.Forward envC8ok).listenerClosed = true
    ∧ (pfSample.Forward envC8ok).clientClosed = true
    ∧ (pfSample.Forward envC8ok).ret = none := by
  have h := forward_cancelled_before_accept pfSample envC8ok rfl rfl (by decide)
  exact ⟨h.1, h.2.1, h.2.2.1, h.2.2.2.mpr ⟨rfl, rfl⟩⟩

def sshdSample : SshdContainer :=
  { dc := { id := "sshd-1", req := {} }, port := "32770"
    sshConfig := none, portForwarders := [] }

def envOfSample : Nat → ForwardEnv := fun i => if i = 1 then envListenFail else envOK

/-- C1: a call to the bridge controller's exposeHostPort with N requested
ports (on a freshly provisioned controller, whose forwarder collection is
empty) returns only after receiving exactly one bind outcome from each of
the N forwarders it created, in collection order; the returned error is the
join of all reported bind errors (every failing forwarder contributes, not
just the first), and every created forwarder remains in the owned collection
with both of its channels open (no close, no rollback). -/
theorem exposeHostPort_barrier_and_error_join (sshdC : SshdContainer) (ports : List Int)
    (envOf : Nat → ForwardEnv) (hinit : sshdC.portForwarders = []) (_hne : ports ≠ []) :
    ((sshdC.exposeHostPort ports envOf).receives.map Prod.fst = List.range ports.length)
    ∧ ((sshdC.exposeHostPort ports envOf).err =
        (List.range ports.length).filterMap (fun i => bindOutcome (envOf i)))
    ∧ ((sshdC.exposeHostPort ports envOf).container.portForwarders =
        ports.map (fun port =>
          NewPortForwarder ("localhost:" ++ sshdC.port) sshdC.sshConfig port port))
    ∧ (∀ pf ∈ (sshdC.exposeHostPort ports envOf).container.portForwarders,
        pf.connectionCreatedClosed = false ∧ pf.terminateChanClosed = false) := by
  have hfw : (sshdC.exposeHostPort ports envOf).container.portForwarders =
      ports.map (fun port =>
        NewPortForwarder ("localhost:" ++ sshdC.port) sshdC.sshConfig port port) := by
    simp [SshdContainer.exposeHostPort, hinit]
  have hrecv : (sshdC.exposeHostPort ports envOf).receives =
      (List.range' 0 ports.length).map (fun j => (j, bindOutcome (envOf j))) := by
    simp [SshdContainer.exposeHostPort, hinit, recvAll_eq]
  refine ⟨?_, ?_, hfw, ?_⟩
  · rw [hrecv, List.range_eq_range', List.map_map]
    simp [Function.comp_def]
  · have herr : (sshdC.exposeHostPort ports envOf).err =
        joinAll (sshdC.exposeHostPort ports envOf).receives := rfl
    rw [herr, joinAll_eq, hrecv, List.filterMap_map, List.range_eq_range']
    rfl
  · intro pf hpf
    rw [hfw] at hpf
    rcases List.mem_map.mp hpf with ⟨port, _, hport⟩
    rw [← hport]
    exact ⟨rfl, rfl⟩

/-- C1 witness: the theorem at a concrete fresh controller and two ports,
the second of which fails to bind. -/
theorem exposeHostPort_barrier_witness :
    ((sshdSample.exposeHostPort [8080, 9090] envOfSample).receives.map Prod.fst
      = List.range 2)
    ∧ ((sshdSample.exposeHostPort [8080, 9090] envOfSample).err =
        (List.range 2).filterMap (fun i => bindOutcome (envOfSample i)))
    ∧ ((sshdSample.exposeHostPort [8080, 9090] envOfSample).container.portForwarders.length
      = 2) := by
  have h := exposeHostPort_barrier_and_error_join sshdSample [8080, 9090] envOfSample rfl
    (by decide)
  refine ⟨h.1, h.2.1, ?_⟩
  rw [h.2.2.1]
  rfl

def sshdWithFwd : SshdContainer := { sshdSample with portForwarders := [pfSample] }

/-- C4: Terminate closes every forwarder of the owned collection before the
event that terminates the underlying bridge container, whatever the
container stop would return (the closes are unconditional), and it returns
exactly the container's own termination result; it is safe on any controller
state, including one with an empty forwarder collection. -/
theorem terminate_closes_all_then_stops_container (sshdC : SshdContainer) (e : Option Err) :
    (∀ pf ∈ (sshdC.Terminate e).1.portForwarders,
        pf.terminateChanClosed = true ∧ pf.connectionCreatedClosed = true)
    ∧ (sshdC.Terminate e).1.portForwarders.length = sshdC.portForwarders.length
    ∧ (sshdC.Terminate e).2.1 = e
    ∧ (∃ pre, (sshdC.Terminate e).2.2 = pre ++ [TerminateEvent.terminateContainer]
        ∧ ∀ i < sshdC.portForwarders.length, TerminateEvent.closeForwarder i ∈ pre) := by
  refine ⟨?_, ?_, rfl, ?_⟩
  · intro pf hpf
    rcases List.mem_map.mp hpf with ⟨pf0, _, hpf0⟩
    rw [← hpf0]
    exact ⟨rfl, rfl⟩
  · exact List.length_map _ _
  · refine ⟨(List.range sshdC.portForwarders.length).map TerminateEvent.closeForwarder,
      rfl, ?_⟩
    intro i hi
    exact List.mem_map.mpr ⟨i, List.mem_range.mpr hi, rfl⟩

/-- C4 witness: the theorem at a controller owning one open forwarder whose
container stop fails; the forwarder is still closed and the stop error is
returned. -/
theorem terminate_closes_all_witness :
    (sshdWithFwd.Terminate (some ("container stop failed"))).2.1
      = some ("container stop failed")
    ∧ (sshdWithFwd.Terminate (some ("container stop failed"))).1.portForwarders.length
      = 1 := by
  have h := terminate_closes_all_then_stops_container sshdWithFwd
    (some ("container stop failed"))
  exact ⟨h.2.2.1, h.2.1⟩

/-- C5 counterexample: with requested networks bridge, bridge, mynet the
source selects the default bridge network (the second entry) although the
first non-default network of the list is mynet, so the claim's clause "the
network the bridge joins is the first non-default network of the list" is
false, as is "a default network listed beyond index 0 is never chosen-away
from" read as first-non-default selection. -/
theorem network_selection_counterexample :
    sshdFirstNetworkOf [("bridge"), ("bridge"), ("mynet")] = "bridge"
    ∧ firstNonDefaultNetwork [("bridge"), ("bridge"), ("mynet")] = some ("mynet")
    ∧ ¬ ("bridge" : String) = "mynet" := by decide

/-- C5 (amended): the bridge joins the first listed network, except that when
the first listed network is the platform default (bridge) and more than one
network was requested, the second listed network is chosen instead — even
when that second network is itself the default; with a sole requested
network, that network is chosen even if it is the default, and the selection
never inspects entries beyond the first two. -/
theorem network_selection_amended (networks : List String) (a b : String)
    (r r' : List String) :
    (networks.headD ("") ≠ "bridge" → sshdFirstNetworkOf networks = networks.headD (""))
    ∧ (networks.headD ("") = "bridge" → 1 < networks.length →
        sshdFirstNetworkOf networks = networks.getD 1 (""))
    ∧ (networks.length ≤ 1 → sshdFirstNetworkOf networks = networks.headD (""))
    ∧ sshdFirstNetworkOf (a :: b :: r) = sshdFirstNetworkOf (a :: b :: r') := by
  refine ⟨?_, ?_, ?_, ?_⟩
  · intro h
    rcases networks with _ | ⟨x, _ | ⟨y, t⟩⟩
    · rfl
    · simp only [List.headD_cons] at h
      simp [sshdFirstNetworkOf, h]
    · simp only [List.headD_cons] at h
      simp [sshdFirstNetworkOf, h]
  · intro h hlen
    rcases networks with _ | ⟨x, _ | ⟨y, t⟩⟩
    · simp at hlen
    · simp at hlen
    · simp only [List.headD_cons] at h
      simp [sshdFirstNetworkOf, h, List.getD]
  · intro hlen
    rcases networks with _ | ⟨x, _ | ⟨y, t⟩⟩
    · rfl
    · by_cases hx : x = "bridge" <;> simp [sshdFirstNetworkOf, hx]
    · simp at hlen
  · by_cases ha : a = "bridge" <;> simp [sshdFirstNetworkOf, ha, List.getD]

/-- C5 witness: the amended theorem at a list whose head is the default
network, at a sole-default list, and at two lists sharing the first two
entries. -/
theorem network_selection_amended_witness :
    sshdFirstNetworkOf [("bridge"), ("net2")] = "net2"
    ∧ sshdFirstNetworkOf [("bridge")] = "bridge"
    ∧ sshdFirstNetworkOf [("n1"), ("n2"), ("n3")] = sshdFirstNetworkOf [("n1"), ("n2")] := by
  refine ⟨?_, ?_, ?_⟩
  · exact (network_selection_amended [("bridge"), ("net2")] ("n1") ("n2") [] []).2.1 rfl
      (by decide)
  · exact (network_selection_amended [("bridge")] ("n1") ("n2") [] []).2.2.1 (by decide)
  · exact (network_selection_amended [] ("n1") ("n2") [("n3")] []).2.2.2

/-- C9: requesting zero ports fails with the usage error before any bridge
container is created and with no side effects: the caller's request
(networks, host-config modifier, everything else) is returned unchanged, the
hook set is the zero value (no hooks), and no container was created. -/
theorem exposeHostPorts_zero_ports_fast_fail (ps : ProcessState) (env : OrchestraEnv)
    (req : Request) (p : List Int) (hp : p = []) :
    (exposeHostPorts ps env req p).err = some ("no ports to expose")
    ∧ (exposeHostPorts ps env req p).hooks.PostReadies = []
    ∧ (exposeHostPorts ps env req p).hooks.PreTerminates = []
    ∧ (exposeHostPorts ps env req p).finalReq = req
    ∧ (exposeHostPorts ps env req p).containersCreated = 0 := by
  subst hp
  exact ⟨rfl, rfl, rfl, rfl, rfl⟩

/-- C9 witness: the theorem at a concrete process state, environment and
request. -/
theorem exposeHostPorts_zero_ports_fast_fail_witness :
    (exposeHostPorts { sshPassword := "w9" }
        { getNetworkByName := fun _ => none, newContainer := fun _ => none
          sshdMappedPort := none, containerIP := none }
        { Networks := [("usernet")] } []).err = some ("no ports to expose")
    ∧ (exposeHostPorts { sshPassword := "w9" }
        { getNetworkByName := fun _ => none, newContainer := fun _ => none
          sshdMappedPort := none, containerIP := none }
        { Networks := [("usernet")] } []).containersCreated = 0 := by
  have h := exposeHostPorts_zero_ports_fast_fail { sshPassword := "w9" }
    { getNetworkByName := fun _ => none, newContainer := fun _ => none
      sshdMappedPort := none, containerIP := none }
    { Networks := [("usernet")] } [] rfl
  exact ⟨h.1, h.2.2.2.2⟩

def psShared : ProcessState := { sshPassword := "process-secret-1" }

def envBridgeA : OrchestraEnv :=
  { getNetworkByName := fun _ => none, newContainer := fun _ => some ("bridge-a")
    sshdMappedPort := some ("32001"), containerIP := none }

def envBridgeB : OrchestraEnv :=
  { getNetworkByName := fun _ => none, newContainer := fun _ => some ("bridge-b")
    sshdMappedPort := some ("32002"), containerIP := none }

/-- C6 counterexample: two distinct bridge container instances created in the
same process carry the identical process-wide secret, both as the PASSWORD
environment variable of their creation request and in their session
authentication configuration — refuting the claim that these secrets are
never shared across two distinct bridge container instances. -/
theorem secret_shared_across_bridges_counterexample :
    ¬ ((newSshdContainer psShared envBridgeA []).1.map (fun c => c.dc.id)
        = (newSshdContainer psShared envBridgeB []).1.map (fun c => c.dc.id))
    ∧ ((newSshdContainer psShared envBridgeA []).1.map (fun c => c.dc.req.Env)
        = (newSshdContainer psShared envBridgeB []).1.map (fun c => c.dc.req.Env))
    ∧ ((newSshdContainer psShared envBridgeA []).1.map
          (fun c => c.sshConfig.map (fun cfg => cfg.authPassword))
        = (newSshdContainer psShared envBridgeB []).1.map
          (fun c => c.sshConfig.map (fun cfg => cfg.authPassword)))
    ∧ ((newSshdContainer psShared envBridgeA []).1.map
          (fun c => c.sshConfig.map (fun cfg => cfg.authPassword))
        = some (some ("process-secret-1"))) := by decide

/-- Applying request customizers that do not touch the Env field leaves the
Env field unchanged. -/
theorem foldl_opts_Env (opts : List (Request → Request)) :
    ∀ r : Request, (∀ o ∈ opts, ∀ x, (o x).Env = x.Env) →
      (opts.foldl (fun a o => o a) r).Env = r.Env := by
  induction opts with
  | nil => intro r _; rfl
  | cons o rest ih =>
      intro r h
      simp only [List.foldl_cons]
      rw [ih (o r) (fun o2 ho2 x => h o2 (by simp [ho2]) x), h o (by simp) r]

/-- C6 (amended): the one-time transport secret is one value per process
(generated once at package initialisation); every bridge container built in
that process — under customizers that do not touch the environment, as the
source's only customizer does not — carries exactly that process secret as
its PASSWORD environment variable, and every session configuration built for
such a bridge authenticates with that same process secret.  The secret is
therefore shared by all bridge instances of one process and is fresh only
per process, not per bridge instance. -/
theorem secret_per_process_shared (ps : ProcessState) (env : OrchestraEnv)
    (opts : List (Request → Request)) (hopts : ∀ o ∈ opts, ∀ r, (o r).Env = r.Env)
    (sshd : SshdContainer) (h : (newSshdContainer ps env opts).1 = some sshd) :
    sshd.dc.req.Env = [(("PASSWORD"), ps.sshPassword)]
    ∧ (∀ cfg, sshd.sshConfig = some cfg → cfg.authPassword = ps.sshPassword) := by
  have hbase : ((opts.foldl (fun r o => o r)
      { Image := sshdImage, HostAccessPorts := [], ExposedPorts := [sshPort]
        Env := [(("PASSWORD"), ps.sshPassword)], Started := true }) : Request).Env
      = [(("PASSWORD"), ps.sshPassword)] := foldl_opts_Env opts _ hopts
  simp only [newSshdContainer, configureSSHConfig] at h
  split at h
  · simp at h
  · rcases hmp : env.sshdMappedPort with _ | mp
    · rw [hmp] at h
      simp only [Option.some.injEq] at h
      rw [← h]
      refine ⟨hbase, ?_⟩
      intro cfg hcfg
      simp at hcfg
    · rw [hmp] at h
      simp only [Option.some.injEq] at h
      rw [← h]
      refine ⟨hbase, ?_⟩
      intro cfg hcfg
      simp only [Option.some.injEq] at hcfg
      rw [← hcfg]

def bridgeA : SshdContainer :=
  { dc := { id := "bridge-a"
            req := { Image := sshdImage, HostAccessPorts := [], ExposedPorts := [sshPort]
                     Env := [(("PASSWORD"), ("process-secret-1"))], Started := true } }
    port := "32001"
    sshConfig := some { user := user, insecureIgnoreHostKey := true
                        authPassword := "process-secret-1", timeoutSeconds := 30 }
    portForwarders := [] }

/-- C6 witness: the amended theorem at the concrete process state and bridge
instance of the counterexample setup. -/
theorem secret_per_process_shared_witness :
    bridgeA.dc.req.Env = [(("PASSWORD"), psShared.sshPassword)] := by
  have h := secret_per_process_shared psShared envBridgeA [] (by simp) bridgeA (by decide)
  exact h.1

/-- C10: whenever exposeHostPorts succeeds, the single registered post-ready
hook forwards exactly the ports read from the request's HostAccessPorts
field at the time the hook runs — not the variadic port list p, which is
only used to reject the empty case — so for every p there is a request state
under which the set of ports actually exposed differs from p. -/
theorem exposeHostPorts_hook_reads_request_ports (ps : ProcessState)
    (env : OrchestraEnv) (req : Request) (p : List Int)
    (hok : (exposeHostPorts ps env req p).err = none) :
    (exposeHostPorts ps env req p).hooks.PostReadies.length = 1
    ∧ ∀ hk ∈ (exposeHostPorts ps env req p).hooks.PostReadies,
        (∀ cur, hk cur = cur.HostAccessPorts) ∧ (∃ cur, hk cur ≠ p) := by
  have hdiff : ∀ q : List Int, ¬ (q ++ [0] = q) := by
    intro q hcontra
    have hlen := congrArg List.length hcontra
    simp at hlen
  by_cases hp : p.length = 0
  · rw [exposeHostPorts, if_pos hp] at hok
    exact absurd hok (by simp)
  · by_cases hn : 0 < req.Networks.length
    · rcases hg : env.getNetworkByName (sshdFirstNetworkOf req.Networks) with _ | nw
      · simp [exposeHostPorts, hp, hn, hg] at hok
      · rcases hns : newSshdContainer ps env [withNetwork [HostInternal] nw] with ⟨a, b, c⟩
        rcases b with _ | e
        · rcases a with _ | sshd
          · simp [exposeHostPorts, hp, hn, hg, hns] at hok
          · rcases hip : env.containerIP with _ | ip
            · simp [exposeHostPorts, hp, hn, hg, hns, hip] at hok
            · simp only [exposeHostPorts]
              rw [if_neg hp]
              simp only [hn, if_true, hg, hns, hip]
              refine ⟨rfl, ?_⟩
              intro hk hhk
              rcases List.mem_singleton.mp hhk with rfl
              exact ⟨fun cur => rfl, ⟨{ HostAccessPorts := p ++ [0] }, hdiff p⟩⟩
        · simp [exposeHostPorts, hp, hn, hg, hns] at hok
    · rcases hns : newSshdContainer ps env [] with ⟨a, b, c⟩
      rcases b with _ | e
      · rcases a with _ | sshd
        · simp [exposeHostPorts, hp, hn, hns] at hok
        · rcases hip : env.containerIP with _ | ip
          · simp [exposeHostPorts, hp, hn, hns, hip] at hok
          · simp only [exposeHostPorts]
            rw [if_neg hp]
            simp only [hn, if_false, hns, hip]
            refine ⟨rfl, ?_⟩
            intro hk hhk
            rcases List.mem_singleton.mp hhk with rfl
            exact ⟨fun cur => rfl, ⟨{ HostAccessPorts := p ++ [0] }, hdiff p⟩⟩
      · simp [exposeHostPorts, hp, hn, hns] at hok

def psSample : ProcessState := { sshPassword := "uuid-a" }

def envFullOk : OrchestraEnv :=
  { getNetworkByName := fun _ => some ("tcnet")
    newContainer := fun _ => some ("sshd-c1")
    sshdMappedPort := some ("32770")
    containerIP := some ("172.17.0.3") }

def reqSample : Request := { HostAccessPorts := [5432], Networks := [("tcnet")] }

/-- C10 witness: the theorem at a concrete successful provisioning with
variadic port list 8080, discharging the success hypothesis by evaluation. -/
theorem exposeHostPorts_hook_reads_request_ports_witness :
    (exposeHostPorts psSample envFullOk reqSample [8080]).hooks.PostReadies.length = 1 := by
  have h := exposeHostPorts_hook_reads_request_ports psSample envFullOk reqSample [8080]
    (by decide)
  exact h.1

def panicSched : List CStep :=
  [CStep.cCloseTerm, CStep.cCloseConn, CStep.fOther, CStep.fSend]

/-- C3 counterexample: one single Close call interleaved before an in-flight
Forward's bind-outcome send is a valid interleaving of the two tasks' steps,
and running that schedule panics (send on a closed channel), so the claim
that a concurrent Close never panics is false on this code. -/
theorem close_racing_forward_panics_counterexample :
    Interleaves (forwardCSteps envDialFail) closeSteps panicSched
    ∧ (runC panicSched).panicked = true := by
  constructor
  · rw [show forwardCSteps envDialFail = [CStep.fOther, CStep.fSend] from rfl]
    exact Interleaves.right _ (Interleaves.right _ (Interleaves.left _
      (Interleaves.left _ Interleaves.nil)))
  · decide

/-- C3 (amended): when the single Close call is interleaved only after the
in-flight Forward has delivered its bind outcome — the order the controller
establishes, since exposeHostPort receives every bind outcome before
returning and Terminate runs Close only afterwards — no interleaving of the
two tasks panics, and exactly one bind outcome is ever delivered. -/
theorem close_after_outcome_delivery_safe (env : ForwardEnv) (M : List CStep)
    (hM : Interleaves (forwardPostSendSteps env) closeSteps M) :
    (runC (forwardPreSendSteps env ++ CStep.fSend :: M)).panicked = false
    ∧ (runC (forwardPreSendSteps env ++ CStep.fSend :: M)).delivered = 1 := by
  have hpost := forwardPostSendSteps_fOther env
  have hnoSend : CStep.fSend ∉ M := by
    intro hmem
    rcases hM.mem CStep.fSend hmem with h1 | h2
    · exact absurd (hpost CStep.fSend h1) (by decide)
    · simp [closeSteps] at h2
  have hcount0 : ∀ a : CStep, a ≠ CStep.fOther →
      countStep a (forwardPostSendSteps env) = 0 := by
    intro a ha
    exact countStep_eq_zero a (forwardPostSendSteps env) hpost ha
  have hcConn : countStep CStep.cCloseConn M = 1 := by
    rw [hM.countStep_eq]
    rw [hcount0 CStep.cCloseConn (by decide)]
    decide
  have hcTerm : countStep CStep.cCloseTerm M = 1 := by
    rw [hM.countStep_eq]
    rw [hcount0 CStep.cCloseTerm (by decide)]
    decide
  have hpre := forwardPreSendSteps_fOther env
  unfold runC
  rw [List.foldl_append, foldl_fOther (forwardPreSendSteps env) {} hpre]
  rw [List.foldl_cons]
  have hstep : stepC {} CStep.fSend =
      { connClosed := false, termClosed := false, delivered := 1, panicked := false } := by
    decide
  rw [hstep]
  exact runC_noSend M _ rfl hnoSend (by rw [hcConn]; decide) (by rw [hcTerm]; decide)

/-- C3 witness: the amended theorem at a successful-bind environment with the
Close steps scheduled after the send, inside the accept phase. -/
theorem close_after_outcome_delivery_safe_witness :
    (runC (forwardPreSendSteps envOK ++ CStep.fSend ::
      [CStep.fOther, CStep.fOther, CStep.cCloseTerm, CStep.cCloseConn])).panicked = false
    ∧ (runC (forwardPreSendSteps envOK ++ CStep.fSend ::
      [CStep.fOther, CStep.fOther, CStep.cCloseTerm, CStep.cCloseConn])).delivered = 1 := by
  have hI : Interleaves (forwardPostSendSteps envOK) closeSteps
      [CStep.fOther, CStep.fOther, CStep.cCloseTerm, CStep.cCloseConn] := by
    rw [show forwardPostSendSteps envOK = [CStep.fOther, CStep.fOther] from rfl]
    exact Interleaves.left _ (Interleaves.left _ (Interleaves.right _
      (Interleaves.right _ Interleaves.nil)))
  exact close_after_outcome_delivery_safe envOK _ hI

end Testcontainers
